import Mathlib

/-! Verification development for the request security and validation pipeline of the
virtual try-on Flask application (src/app.py): input sanitisation, upload
validation and naming, rate limiting, CSRF protection and response headers.
Regular expressions from the source are embedded as executable matchers over
`List Char`; `re.IGNORECASE` is modelled by lower-casing each character before
comparing it with the (lower-case) literal pattern text, and the character
classes `\w` and `\s` are modelled over their ASCII ranges, which is exact for
ASCII input. -/

namespace TechSoft

/-- The apostrophe character (codepoint 39). -/
def squote : Char := Char.ofNat 39

/-- ASCII whitespace as recognised by Python's `\s` and `str.split()`:
space, tab, newline, carriage return, vertical tab, form feed. -/
def isPySpace (c : Char) : Bool :=
  c == ' ' || c == '\t' || c == '\n' || c == '\r' || c == '\x0b' || c == '\x0c'

/-- Python's `\w` over the ASCII range: letters, digits and underscore. -/
def isWordChar (c : Char) : Bool := c.isAlphanum || c == '_'

/-- Case-insensitive match of the literal `pat` (given in lower case) at the head
of `l`; on success returns the remainder of `l` after the literal. -/
def leadCI : List Char → List Char → Option (List Char)
  | [], l => some l
  | _ :: _, [] => none
  | p :: ps, c :: cs => if c.toLower = p then leadCI ps cs else none

lemma leadCI_length : ∀ {p l r : List Char}, leadCI p l = some r → r.length + p.length = l.length := by
  intro p
  induction p with
  | nil => intro l r h; simp [leadCI] at h; simp [h]
  | cons a ps ih =>
    intro l r h
    cases l with
    | nil => simp [leadCI] at h
    | cons c cs =>
      simp only [leadCI] at h
      split at h
      · have := ih h
        simp [List.length_cons]
        omega
      · exact absurd h (by simp)

lemma dropWhile_length_le {α : Type} (p : α → Bool) : ∀ l : List α, (l.dropWhile p).length ≤ l.length := by
  intro l
  induction l with
  | nil => simp
  | cons a as ih =>
    by_cases h : p a
    · rw [List.dropWhile_cons_of_pos h]
      simp [List.length_cons]
      omega
    · rw [List.dropWhile_cons_of_neg h]

/-- Does `m` match at some position of the list (the semantics of `re.search`)? -/
def searchAt (m : List Char → Option (List Char)) : List Char → Bool
  | [] => (m []).isSome
  | c :: cs => (m (c :: cs)).isSome || searchAt m cs

/-- Case-insensitive substring search for a literal pattern (given lower case). -/
def subSearch (pat : List Char) (l : List Char) : Bool := searchAt (leadCI pat) l

/-- The literal `<script` (the opening of the script-tag pattern
`<script[^>]*>.*?</script>` of src/app.py lines 23 and 51). -/
def scriptOpen : List Char := "<script".data

/-- The literal `</script>` closing the script-tag pattern. -/
def scriptClose : List Char := "</script>".data

/-- Scan for the closing `</script>` of the script-tag pattern, i.e. the
`.*?</script>` part: when `dotall` is false the dot does not cross a newline
(`re.DOTALL` absent, as in the deny check of `sanitize_input`); when true it
does (as in `clean_html`). Returns the remainder after the closing literal. -/
def findClose (dotall : Bool) : List Char → Option (List Char)
  | [] => none
  | c :: cs =>
    match leadCI scriptClose (c :: cs) with
    | some r => some r
    | none => if !dotall && c == '\n' then none else findClose dotall cs

lemma findClose_length : ∀ {d : Bool} {l r : List Char}, findClose d l = some r → r.length < l.length := by
  intro d l
  induction l with
  | nil => intro r h; simp [findClose] at h
  | cons c cs ih =>
    intro r h
    simp only [findClose] at h
    split at h
    · rename_i heq
      have hlen := leadCI_length heq
      cases h
      simp [scriptClose] at hlen
      simp [List.length_cons]
      omega
    · split at h
      · exact absurd h (by simp)
      · have := ih h
        simp [List.length_cons]
        omega

/-- Match the pattern `<script[^>]*>.*?</script>` at the head of the list,
case-insensitively; returns the remainder after the match. -/
def scriptMatchAt (dotall : Bool) (l : List Char) : Option (List Char) :=
  match leadCI scriptOpen l with
  | none => none
  | some r =>
    match r.dropWhile (fun c => !(c == '>')) with
    | [] => none
    | _ :: body => findClose dotall body

lemma scriptMatchAt_length : ∀ {d : Bool} {l r : List Char},
    scriptMatchAt d l = some r → r.length < l.length := by
  intro d l r h
  simp only [scriptMatchAt] at h
  split at h
  · exact absurd h (by simp)
  · rename_i r1 heq1
    have h1 : r1.length + scriptOpen.length = l.length := leadCI_length heq1
    split at h
    · exact absurd h (by simp)
    · rename_i g body heq2
      have h2 : (g :: body).length ≤ r1.length := by
        rw [← heq2]; exact dropWhile_length_le _ r1
      have h3 := findClose_length h
      simp [List.length_cons] at h2
      simp [scriptOpen] at h1
      omega

/-- Match the pattern `on\w+\s*=` at the head of the list (inline event-handler
attribute, src/app.py lines 24 and 53); returns the remainder after the `=`. -/
def onAttrMatchAt (l : List Char) : Option (List Char) :=
  match leadCI "on".data l with
  | none => none
  | some [] => none
  | some (c :: rest) =>
    if isWordChar c then
      match (rest.dropWhile isWordChar).dropWhile isPySpace with
      | '=' :: r2 => some r2
      | _ => none
    else none

lemma onAttrMatchAt_length : ∀ {l r : List Char}, onAttrMatchAt l = some r → r.length < l.length := by
  intro l r h
  simp only [onAttrMatchAt] at h
  split at h
  · exact absurd h (by simp)
  · exact absurd h (by simp)
  · rename_i c rest heq
    have h1 : (c :: rest).length + ("on".data).length = l.length := leadCI_length heq
    split at h
    · split at h
      · rename_i r2 heq2
        cases h
        have h2 : ((rest.dropWhile isWordChar).dropWhile isPySpace).length ≤ rest.length := by
          calc ((rest.dropWhile isWordChar).dropWhile isPySpace).length
              ≤ (rest.dropWhile isWordChar).length := dropWhile_length_le _ (rest.dropWhile isWordChar)
            _ ≤ rest.length := dropWhile_length_le _ rest
        rw [heq2] at h2
        simp [List.length_cons] at h2 h1 ⊢
        omega
      · exact absurd h (by simp)
    · exact absurd h (by simp)

/-- Match a lower-case literal followed by `\s*` and one final character, the
shape of the patterns `expression\s*\(`, `url\s*\(` and `binding\s*:`
(src/app.py lines 54, 55, 57); returns the remainder after the final character. -/
def litSpacesChar (pat : List Char) (after : Char) (l : List Char) : Option (List Char) :=
  match leadCI pat l with
  | none => none
  | some r =>
    match r.dropWhile isPySpace with
    | c :: r2 => if c == after then some r2 else none
    | [] => none

lemma litSpacesChar_length : ∀ {pat : List Char} {a : Char} {l r : List Char},
    pat ≠ [] → litSpacesChar pat a l = some r → r.length < l.length := by
  intro pat a l r hne h
  simp only [litSpacesChar] at h
  split at h
  · exact absurd h (by simp)
  · rename_i r1 heq1
    have h1 : r1.length + pat.length = l.length := leadCI_length heq1
    split at h
    · rename_i c r2 heq2
      split at h
      · cases h
        have h2 : (r1.dropWhile isPySpace).length ≤ r1.length := dropWhile_length_le _ r1
        rw [heq2] at h2
        have hp : 0 < pat.length := List.length_pos.mpr hne
        simp [List.length_cons] at h2
        omega
      · exact absurd h (by simp)
    · exact absurd h (by simp)

/-- Fuel-driven scan implementing `re.sub(pattern, '', text)`: remove each
non-overlapping leftmost match (the matcher `m` returns the remainder after a
match starting at the given position). The fuel starts at the length of the
input; since every match of the matchers used below consumes at least one
character (the `_length` lemmas above), the out-of-fuel branch, which returns
the remainder unchanged, is never reached — `removeMatchesAux_congr` below
makes this precise. -/
def removeMatchesAux (m : List Char → Option (List Char)) : Nat → List Char → List Char
  | _, [] => []
  | 0, l => l
  | f + 1, c :: cs =>
    match m (c :: cs) with
    | some rest => removeMatchesAux m f rest
    | none => c :: removeMatchesAux m f cs

/-- The semantics of `re.sub(pattern, '', text)` for a matcher `m`. -/
def removeMatches (m : List Char → Option (List Char)) (l : List Char) : List Char :=
  removeMatchesAux m l.length l

lemma removeMatchesAux_congr (m : List Char → Option (List Char))
    (hm : ∀ {l r : List Char}, m l = some r → r.length < l.length) :
    ∀ f1 : Nat, ∀ f2 : Nat, ∀ l : List Char, l.length ≤ f1 → l.length ≤ f2 →
      removeMatchesAux m f1 l = removeMatchesAux m f2 l := by
  intro f1
  induction f1 with
  | zero =>
    intro f2 l h1 _
    cases l with
    | nil => cases f2 <;> rfl
    | cons c cs => simp [List.length_cons] at h1
  | succ g1 ih =>
    intro f2 l h1 h2
    cases l with
    | nil => cases f2 <;> rfl
    | cons c cs =>
      cases f2 with
      | zero => simp [List.length_cons] at h2
      | succ g2 =>
        simp only [removeMatchesAux]
        cases hcase : m (c :: cs) with
        | some rest =>
          have hr := hm hcase
          simp [List.length_cons] at h1 h2 hr
          exact ih g2 rest (by omega) (by omega)
        | none =>
          simp [List.length_cons] at h1 h2
          rw [ih g2 cs (by omega) (by omega)]

/-- The defining step of `removeMatches`: on a match continue after the removed
match, otherwise keep the head character and continue. -/
lemma removeMatches_cons (m : List Char → Option (List Char))
    (hm : ∀ {l r : List Char}, m l = some r → r.length < l.length) (c : Char) (cs : List Char) :
    removeMatches m (c :: cs) =
      match m (c :: cs) with
      | some rest => removeMatches m rest
      | none => c :: removeMatches m cs := by
  show removeMatchesAux m (c :: cs).length (c :: cs) = _
  simp only [List.length_cons, removeMatchesAux]
  cases hcase : m (c :: cs) with
  | some rest =>
    have hr := hm hcase
    exact removeMatchesAux_congr m hm cs.length rest.length rest
      (by simp [List.length_cons] at hr; omega) (Nat.le_refl _)
  | none => rfl

/-- Matcher for `javascript:` (src/app.py lines 25 and 52). -/
def jsMatchAt (l : List Char) : Option (List Char) := leadCI "javascript:".data l

lemma jsMatchAt_length : ∀ {l r : List Char}, jsMatchAt l = some r → r.length < l.length := by
  intro l r h
  have := leadCI_length h
  simp at this
  omega

/-- The deny list `DANGEROUS_PATTERNS` of src/app.py lines 50-58, each pattern
paired with its executable `re.search` semantics (matched with `re.IGNORECASE`
only, exactly as in `sanitize_input`, so the `.` of the script pattern does not
cross newlines). -/
def DANGEROUS_PATTERNS : List (String × (List Char → Bool)) :=
  [ ("<script[^>]*>.*?</script>", searchAt (scriptMatchAt false)),
    ("javascript:", searchAt jsMatchAt),
    ("on\\w+\\s*=", searchAt onAttrMatchAt),
    ("expression\\s*\\(", searchAt (litSpacesChar "expression".data '(')),
    ("url\\s*\\(", searchAt (litSpacesChar "url".data '(')),
    ("@import", searchAt (leadCI "@import".data)),
    ("binding\\s*:", searchAt (litSpacesChar "binding".data ':')) ]

/-- One step of Python's `html.escape(s, quote=True)` on a single character. -/
def escapeChar (c : Char) : List Char :=
  if c = '&' then "&amp;".data
  else if c = '<' then "&lt;".data
  else if c = '>' then "&gt;".data
  else if c = '"' then "&quot;".data
  else if c = squote then "&#x27;".data
  else [c]

/-- Python's `html.escape(s, quote=True)`. -/
def htmlEscape : List Char → List Char
  | [] => []
  | c :: cs => escapeChar c ++ htmlEscape cs

/-- `clean_html` of src/app.py lines 18-26: remove script-tag blocks (with
`re.IGNORECASE | re.DOTALL`), then inline event-handler attributes, then
`javascript:` (both with `re.IGNORECASE`), then HTML-escape the remainder. An
empty (falsy) input returns the empty string before any of that. -/
def clean_html (l : List Char) : List Char :=
  if l.isEmpty then []
  else
    htmlEscape
      (removeMatches jsMatchAt
        (removeMatches onAttrMatchAt
          (removeMatches (scriptMatchAt true) l)))

/-- The name of the first deny pattern matching the input, if any (the pattern
whose class is recorded in the security-event log by `sanitize_input`). -/
def firstMatchedPattern (s : String) : Option String :=
  (DANGEROUS_PATTERNS.find? (fun p => p.2 s.data)).map Prod.fst

/-- `sanitize_input` of src/app.py lines 84-101. A falsy input yields the empty
string. Otherwise each deny pattern is searched in order; on the first match the
function logs one warning naming that pattern and returns the empty string
(never cleaning partially). If no pattern matches, the result is `clean_html`
of the input. The returned pair is (result, list of logged security events);
`None` input takes the falsy branch and non-string input arrives here through
`str(...)`, so quantifying over all strings covers all input values. -/
def sanitize_input (text : String) : String × List String :=
  if text = "" then ("", [])
  else
    match DANGEROUS_PATTERNS.find? (fun p => p.2 text.data) with
    | some p => ("", [p.1])
    | none => (String.mk (clean_html text.data), [])

example : sanitize_input "javascript:alert(1)" = ("", ["javascript:"]) := by decide
example : sanitize_input "<SCRIPT>alert(1)</SCRIPT>" = ("", ["<script[^>]*>.*?</script>"]) := by decide
example : sanitize_input "x<script>\na\n</script>y" = ("xy", []) := by decide
example : sanitize_input "a<b & c" = ("a&lt;b &amp; c", []) := by decide
example : sanitize_input "onclick = x" = ("", ["on\\w+\\s*="]) := by decide
example : sanitize_input "URL (x)" = ("", ["url\\s*\\("]) := by decide

/-- The character class kept by werkzeug's `secure_filename` strip step
(`[^A-Za-z0-9_.-]` is removed): ASCII letters, digits, underscore, dot, dash. -/
def keepChar (c : Char) : Bool :=
  (65 ≤ c.toNat && c.toNat ≤ 90) || (97 ≤ c.toNat && c.toNat ≤ 122) ||
  (48 ≤ c.toNat && c.toNat ≤ 57) || c == '_' || c == '.' || c == '-'

/-- Python's `str.split()` (no separator): split on runs of whitespace,
discarding empty pieces; `acc` accumulates the current word reversed. -/
def pySplitAux : List Char → List Char → List (List Char)
  | [], acc => if acc.isEmpty then [] else [acc.reverse]
  | c :: cs, acc =>
    if isPySpace c then
      if acc.isEmpty then pySplitAux cs [] else acc.reverse :: pySplitAux cs []
    else pySplitAux cs (c :: acc)

/-- Python's `str.split()` with no separator. -/
def pySplit (l : List Char) : List (List Char) := pySplitAux l []

/-- Strip each character of `bad` from both ends of the list
(Python's `str.strip("._")`). -/
def stripChars (bad : List Char) (l : List Char) : List Char :=
  ((l.dropWhile (fun c => bad.contains c)).reverse.dropWhile (fun c => bad.contains c)).reverse

/-- werkzeug's `secure_filename`, used directly by `upload_file`
(src/app.py line 322): NFKD-normalise and encode to ASCII dropping other
characters (the NFKD step is modelled as the identity, which is exact for ASCII
input), replace `os.sep` (`/` on the posix deployment; `os.path.altsep` is
`None` there) by a space, join the whitespace-split pieces with `_`, delete
every character outside `[A-Za-z0-9_.-]`, and strip leading/trailing `.` and
`_`. The Windows device-name branch is dead on posix and omitted. -/
def secureFilenameL (l : List Char) : List Char :=
  let ascii := l.filter (fun c => c.toNat < 128)
  let sep := ascii.map (fun c => if c == '/' then ' ' else c)
  let joined := List.intercalate ['_'] (pySplit sep)
  stripChars ['.', '_'] (joined.filter keepChar)

/-- String version of `secureFilenameL`. -/
def secure_filename (s : String) : String := String.mk (secureFilenameL s.data)

/-- Python's `str.replace(old, '')` for the two-character pattern `..`
(non-overlapping, left to right), used by `sanitize_filename`. -/
def removeDotDot : List Char → List Char
  | '.' :: '.' :: rest => removeDotDot rest
  | c :: rest => c :: removeDotDot rest
  | [] => []

/-- `sanitize_filename` of src/app.py lines 68-82: for a falsy filename return
`upload_<now>`; otherwise delete characters outside `\w`, `\s`, `.`, `-`,
remove `..`, `/` and `\`, truncate to 100 characters and pass the result to
werkzeug's `secure_filename`. Note: `upload_file` does NOT call this function;
it calls `secure_filename` directly, so the 100-character truncation is not
applied on the upload path. -/
def sanitize_filename (now : Nat) (filename : String) : String :=
  if filename = "" then "upload_" ++ toString now
  else
    let step1 := filename.data.filter
      (fun c => isWordChar c || isPySpace c || c == '.' || c == '-')
    let step2 := (removeDotDot step1).filter (fun c => !(c == '/') && !(c == '\\'))
    String.mk (secureFilenameL (step2.take 100))

/-- The persisted storage name built by `upload_file` (src/app.py lines
320-324): `upload_<timestamp>_<secure_filename(original)>`, where the timestamp
list is the digits of `str(int(time.time()))`. -/
def uploadNameL (ts : List Char) (orig : List Char) : List Char :=
  "upload_".data ++ ts ++ '_' :: secureFilenameL orig

/-- String version of `uploadNameL`. -/
def uploadName (ts : String) (orig : String) : String :=
  String.mk (uploadNameL ts.data orig.data)

example : secure_filename "x.png" = "x.png" := by decide
example : secure_filename "../../etc/passwd" = "etc_passwd" := by decide
example : secure_filename "a..b.png" = "a..b.png" := by decide
example : secure_filename "My cool movie.mov" = "My_cool_movie.mov" := by decide
example : uploadName "0" "x.png" = "upload_0_x.png" := by decide
example : sanitize_filename 7 "" = "upload_7" := by decide

/-- Seconds in a day: Python's `timedelta.seconds` attribute is the sub-day
component of the duration, i.e. `totalSeconds % 86400`, not the total. -/
def SECONDS_PER_DAY : Nat := 86400

/-- One check of the `rate_limit` decorator (src/app.py lines 172-202) for one
key, over integer-second timestamps with `t ≤ now` (time is monotone and every
stored timestamp was a past `datetime.now()`). The filter keeps `req_time` when
`(current_time - req_time).seconds < window`, and `.seconds` of a non-negative
timedelta is `(now - t) % 86400`. When the surviving count reaches the limit
the check is denied and the session entry is left as it was (the early return
skips both the pruning write-back and the append); otherwise the pruned list
with `now` appended is stored and the check is allowed. Returns
(allowed?, stored timestamp list after the check). -/
def rateLimitCheck (maxRequests window : Nat) (log : List Nat) (now : Nat) : Bool × List Nat :=
  let recent := log.filter (fun t => (now - t) % SECONDS_PER_DAY < window)
  if maxRequests ≤ recent.length then (false, log)
  else (true, recent ++ [now])

/-- Run a sequence of checks at the given times, threading the stored list. -/
def runChecks (maxRequests window : Nat) : List Nat → List Nat → List Nat
  | log, [] => log
  | log, t :: ts => runChecks maxRequests window (rateLimitCheck maxRequests window log t).2 ts

example : (rateLimitCheck 10 60 (List.replicate 10 0) 30).1 = false := by decide
example : (rateLimitCheck 10 60 (List.replicate 10 0) 60).1 = true := by decide
example : (rateLimitCheck 10 60 (List.replicate 10 0) 86400).1 = false := by decide

/-- `validate_csrf_token` of src/app.py lines 153-159: `False` when no token is
presented (absent or falsy-empty) or the session holds no `csrf_token`;
otherwise `secrets.compare_digest`, i.e. string equality decided in constant
time. -/
def validate_csrf_token (token : Option String) (sessionToken : Option String) : Bool :=
  match token, sessionToken with
  | none, _ => false
  | some _, none => false
  | some t, some s => if t = "" then false else t == s

/-- `generate_csrf_token` of src/app.py lines 147-151: bind a fresh random
token when the session has none, otherwise return the bound one (idempotent).
`fresh` stands for `secrets.token_urlsafe(32)`. Returns (token, new session
binding). -/
def generate_csrf_token (sessionToken : Option String) (fresh : String) : String × Option String :=
  match sessionToken with
  | some t => (t, some t)
  | none => (fresh, some fresh)

/-- The methods guarded by `csrf_protected` (src/app.py line 165). -/
def MUTATING_METHODS : List String := ["POST", "PUT", "DELETE", "PATCH"]

/-- Outcome of a guarded route: either an early rejection (error body and HTTP
status, produced before the handler runs) or the handler's own result. -/
inductive HandlerOutcome (A : Type) where
  | rejected (error : String) (status : Nat)
  | handled (result : A)
deriving DecidableEq

/-- The `csrf_protected` decorator (src/app.py lines 161-170): for mutating
methods, reject with a 403 error when token validation fails, else run the
handler; `token` is the value resolved from the `X-CSRFToken` header or the
`csrf_token` form field. -/
def csrf_protected {A : Type} (method : String) (token sessionToken : Option String)
    (handler : A) : HandlerOutcome A :=
  if MUTATING_METHODS.contains method && !(validate_csrf_token token sessionToken) then
    .rejected "CSRF token validation failed" 403
  else .handled handler

example : csrf_protected "POST" none (some "s") 0 = .rejected "CSRF token validation failed" 403 := by decide
example : csrf_protected "GET" none none 0 = .handled 0 := by decide
example : csrf_protected "POST" (some "s") (some "s") 0 = .handled 0 := by decide

/-- Response headers as an ordered multimap, as in werkzeug. -/
abbrev Headers : Type := List (String × String)

/-- `response.headers[k] = v`: replace any existing entries for the key. -/
def setHeader (k v : String) (h : Headers) : Headers :=
  (List.filter (fun p => !(p.1 == k)) h) ++ [(k, v)]

/-- `response.headers.add(k, v)`: append, keeping existing entries. -/
def addHeader (k v : String) (h : Headers) : Headers := h ++ [(k, v)]

/-- Does the response carry a header with this name? -/
def hasHeader (k : String) (h : Headers) : Bool := h.any (fun p => p.1 == k)

/-- A single-quote wrapped CSP source expression, e.g. `'self'`. -/
def csq (s : String) : String := String.mk (squote :: s.data ++ [squote])

/-- The content-security-policy string of src/app.py lines 216-225 and 266-275. -/
def cspValue : String :=
  "default-src " ++ csq "self" ++ "; " ++
  "script-src " ++ csq "self" ++ " " ++ csq "unsafe-inline" ++ "; " ++
  "style-src " ++ csq "self" ++ " " ++ csq "unsafe-inline" ++ " https://fonts.googleapis.com; " ++
  "font-src " ++ csq "self" ++ " https://fonts.gstatic.com; " ++
  "img-src " ++ csq "self" ++ " data: blob:; " ++
  "media-src " ++ csq "self" ++ " blob:; " ++
  "connect-src " ++ csq "self" ++ "; " ++
  "frame-src " ++ csq "none" ++ ";"

/-- The `secure_headers` decorator (src/app.py lines 204-228), applied only to
the `/csrf-token` and `/api/security-event` routes: sets the fixed security
headers, including Strict-Transport-Security and the CSP, on that response. -/
def secure_headers (h : Headers) : Headers :=
  setHeader "Content-Security-Policy" cspValue
    (setHeader "Referrer-Policy" "strict-origin-when-cross-origin"
      (setHeader "Strict-Transport-Security" "max-age=31536000; includeSubDomains"
        (setHeader "X-XSS-Protection" "1; mode=block"
          (setHeader "X-Frame-Options" "DENY"
            (setHeader "X-Content-Type-Options" "nosniff" h)))))

/-- The unconditional part of the `after_request` hook (src/app.py lines
249-262), in source order: add the four CORS headers, then set the four
security headers. -/
def afterRequestCore (h : Headers) : Headers :=
  setHeader "Referrer-Policy" "strict-origin-when-cross-origin"
    (setHeader "X-XSS-Protection" "1; mode=block"
      (setHeader "X-Frame-Options" "DENY"
        (setHeader "X-Content-Type-Options" "nosniff"
          (addHeader "Access-Control-Allow-Credentials" "true"
            (addHeader "Access-Control-Allow-Methods" "GET,PUT,POST,DELETE,OPTIONS"
              (addHeader "Access-Control-Allow-Headers" "Content-Type,Authorization,X-CSRFToken"
                (addHeader "Access-Control-Allow-Origin" "*" h)))))))

/-- The `after_request` hook (src/app.py lines 249-278), applied to every
outgoing response: the unconditional CORS and security headers, then the CSP —
set only when `ENVIRONMENT` is `production`. It sets neither
Strict-Transport-Security nor (outside production) any CSP. -/
def after_request (isProduction : Bool) (h : Headers) : Headers :=
  if isProduction then setHeader "Content-Security-Policy" cspValue (afterRequestCore h)
  else afterRequestCore h

example : hasHeader "Strict-Transport-Security" (after_request false []) = false := by decide
example : hasHeader "X-Frame-Options" (after_request false []) = true := by decide
example : hasHeader "Strict-Transport-Security" (secure_headers []) = true := by decide

/-- The extension allow-list of src/app.py line 47. -/
def ALLOWED_EXTENSIONS : List String := ["png", "jpg", "jpeg"]

/-- `allowed_file` of src/app.py lines 64-66: the filename contains a `.` and
the lower-cased part after the last `.` (Python's `rsplit('.', 1)[1]`) is in
the allow-list. -/
def allowed_file (filename : String) : Bool :=
  filename.data.contains '.' &&
    ALLOWED_EXTENSIONS.contains
      (String.mk (((filename.data.reverse.takeWhile (fun c => !(c == '.'))).reverse).map Char.toLower))

example : allowed_file "a.PNG" = true := by decide
example : allowed_file "a.gif" = false := by decide
example : allowed_file "png" = false := by decide

/-- `app.config['MAX_CONTENT_LENGTH']` (src/app.py line 35): 16 MiB. -/
def MAX_CONTENT_LENGTH : Nat := 16 * 1024 * 1024

/-- Image format as reported by the external decoder (PIL detects the format
from the byte content, never from the filename). -/
inductive ImgFormat where
  | png
  | jpeg
  | other
deriving DecidableEq

/-- The external image decoder: `PIL.Image.open` followed by reading `.size`,
abstracted as a function from the byte stream to `some (format, width, height)`
on a successful decode and `none` when `Image.open`/the dimension read raises. -/
abbrev Decoder : Type := List Nat → Option (ImgFormat × Nat × Nat)

/-- An upload candidate: the claimed filename, the raw bytes, and the
client-declared MIME type (`file.mimetype`). -/
structure UploadFile where
  filename : String
  bytes : List Nat
  mimetype : String
deriving DecidableEq

/-- The upload store: persisted (name, bytes) pairs under `static/uploads`. -/
abbrev Storage : Type := List (String × List Nat)

/-- The JSON body returned by the upload endpoint: the success shape carries
exactly `success:true`, `filename`, `original_name`, `width`, `height`,
`file_size`, `mime_type`; the failure shape carries `success:false`, `error`,
`error_code` plus the HTTP status. -/
inductive UploadResponse where
  | success (filename original_name : String) (width height file_size : Nat) (mime_type : String)
  | failure (error : String) (error_code : String) (status : Nat)
deriving DecidableEq

/-- The `upload_file` handler body (src/app.py lines 301-355). `file?` is
`request.files['file']` when present. With no file or an empty filename it
fails with `NO_FILE`; with a disallowed extension, with `INVALID_FILE_TYPE`.
Otherwise it SAVES the file under `upload_<timestamp>_<secure_filename(...)>`
and only then opens it with PIL to read the dimensions; a failed decode raises
into the generic handler, which returns `PROCESSING_ERROR` — the saved file is
not removed. `file_size` is `os.path.getsize` of the saved file, i.e. the byte
count. The truthiness test `if file and ...` equals `file.filename != ''`,
already established at this point. Returns (response, storage after the call). -/
def upload_file (decode : Decoder) (now : Nat) (file? : Option UploadFile)
    (storage : Storage) : UploadResponse × Storage :=
  match file? with
  | none => (.failure "No file provided" "NO_FILE" 400, storage)
  | some f =>
    if f.filename = "" then (.failure "No file selected" "NO_FILE" 400, storage)
    else if allowed_file f.filename then
      let name := uploadName (toString now) f.filename
      let stored := storage ++ [(name, f.bytes)]
      match decode f.bytes with
      | some (_, w, h) => (.success name f.filename w h f.bytes.length f.mimetype, stored)
      | none => (.failure "File processing failed. Please try again." "PROCESSING_ERROR" 500, stored)
    else (.failure "Invalid file type. Only JPG and PNG files are allowed." "INVALID_FILE_TYPE" 400, storage)

/-- The upload endpoint as reached by a client: Flask enforces
`MAX_CONTENT_LENGTH` before the handler runs and answers 413 through the
`too_large` handler (src/app.py lines 557-559); the request body length is
modelled as the file's byte length. Otherwise the request reaches
`upload_file`. -/
def handleUpload (decode : Decoder) (now : Nat) (file? : Option UploadFile)
    (storage : Storage) : UploadResponse × Storage :=
  match file? with
  | some f =>
    if f.bytes.length > MAX_CONTENT_LENGTH then
      (.failure "File too large" "FILE_TOO_LARGE" 413, storage)
    else upload_file decode now file? storage
  | none => upload_file decode now none storage

/-- A decoder that rejects every byte stream. -/
def rejectAllDecoder : Decoder := fun _ => none

/-- A decoder that recognises exactly the two-byte stream `FF D8` as a 5x7
JPEG. -/
def jpegOnlyDecoder : Decoder :=
  fun b => if b = [255, 216] then some (.jpeg, 5, 7) else none

example : handleUpload rejectAllDecoder 0 (some ⟨"x.png", [1, 2, 3], "image/png"⟩) [] =
    (.failure "File processing failed. Please try again." "PROCESSING_ERROR" 500,
     [("upload_0_x.png", [1, 2, 3])]) := by decide
example : (handleUpload jpegOnlyDecoder 0 (some ⟨"x.png", [255, 216], "image/png"⟩) []).1 =
    .success "upload_0_x.png" "x.png" 5 7 2 "image/png" := by decide
example : handleUpload rejectAllDecoder 0 (some ⟨"x.txt", [1], "text/plain"⟩) [] =
    (.failure "Invalid file type. Only JPG and PNG files are allowed." "INVALID_FILE_TYPE" 400, []) := by decide

lemma find?_of_any {α : Type} (p : α → Bool) (l : List α) (h : l.any p = true) :
    ∃ x, l.find? p = some x := by
  rw [List.any_eq_true] at h
  obtain ⟨x, hx, hpx⟩ := h
  have : (l.find? p).isSome := List.find?_isSome.mpr ⟨x, hx, hpx⟩
  exact Option.isSome_iff_exists.mp this

/-- C1 (amended): when one of the deny patterns, as implemented — matched
case-insensitively but with the script-tag pattern unable to cross a newline —
matches the input, `sanitize_input` returns the empty string and records
exactly one security event, naming the first matching pattern; it performs no
partial cleaning of such input. -/
theorem sanitize_deny_single_event :
    ∀ s : String, DANGEROUS_PATTERNS.any (fun p => p.2 s.data) = true →
      sanitize_input s = ("", [(firstMatchedPattern s).getD ""]) ∧
      (firstMatchedPattern s).isSome = true := by
  intro s h
  obtain ⟨q, hq⟩ := find?_of_any _ _ h
  have hs : s ≠ "" := by
    intro he
    subst he
    exact absurd h (by decide)
  refine ⟨?_, ?_⟩
  · simp [sanitize_input, hs, hq, firstMatchedPattern]
  · simp [firstMatchedPattern, hq]

/-- C1 (witness): a `javascript:` URI is denied with one recorded event. -/
theorem sanitize_deny_single_event_witness :
    sanitize_input "javascript:alert(1)" =
      ("", [(firstMatchedPattern "javascript:alert(1)").getD ""]) ∧
    (firstMatchedPattern "javascript:alert(1)").isSome = true :=
  sanitize_deny_single_event "javascript:alert(1)" (by decide)

/-- C1 (counterexample): a script block spanning newlines — which the claim
says is denied with the empty string and exactly one security event — is NOT
caught by the deny loop (its patterns are searched without `re.DOTALL`):
`sanitize_input` records no event and returns the surrounding text `xy`, not
the empty string. The block matches the newline-spanning reading of the script
pattern, as the first conjunct shows. -/
theorem sanitize_multiline_script_not_denied :
    searchAt (scriptMatchAt true) "x<script>\na\n</script>y".data = true ∧
    sanitize_input "x<script>\na\n</script>y" = ("xy", []) := by decide

/-- A character that must never appear unescaped in sanitised output. -/
def rawMeta (c : Char) : Bool := c == '<' || c == '>' || c == '"' || c == squote

lemma escapeChar_noMeta (c : Char) : (escapeChar c).all (fun d => !(rawMeta d)) = true := by
  unfold escapeChar
  split
  · decide
  · split
    · decide
    · split
      · decide
      · split
        · decide
        · split
          · decide
          · rename_i h1 h2 h3 h4 h5
            simp [rawMeta, h2, h3, h4, h5]

lemma htmlEscape_noMeta : ∀ l : List Char, (htmlEscape l).all (fun d => !(rawMeta d)) = true := by
  intro l
  induction l with
  | nil => rfl
  | cons c cs ih =>
    simp only [htmlEscape, List.all_append, Bool.and_eq_true]
    exact ⟨escapeChar_noMeta c, ih⟩

lemma clean_html_noMeta (l : List Char) : (clean_html l).all (fun d => !(rawMeta d)) = true := by
  unfold clean_html
  split
  · rfl
  · exact htmlEscape_noMeta _

/-- C10 (confirmed): for every input — `None` and the empty string take the
falsy branch, and any other value reaches the function as `str(...)`, so
quantifying over all strings covers all inputs — `sanitize_input` totally
computes a result containing no raw `<`, `>`, `"` or `'` character: it is
either the empty string or fully HTML-escaped. -/
theorem sanitize_output_no_raw_metachars :
    ∀ s : String, ((sanitize_input s).1.data.all (fun c => !(rawMeta c))) = true := by
  intro s
  by_cases hs : s = ""
  · subst hs; decide
  · cases hq : DANGEROUS_PATTERNS.find? (fun p => p.2 s.data) with
    | some q => simp [sanitize_input, hs, hq]
    | none =>
      simp only [sanitize_input, if_neg hs, hq]
      exact clean_html_noMeta s.data

/-- C3 (code bug): after ten allowed checks at time 0, an eleventh check inside
the window (t = 30) is denied and not recorded — but a check a full day later
(t = 86400, far more than 60 seconds after the earliest recorded call) is STILL
denied, because `(current_time - req_time).seconds` is the sub-day component of
the timedelta (86400 % 86400 = 0 < 60), not the elapsed seconds. The claim's
re-allowance after 60 elapsed seconds fails. -/
theorem rate_limit_day_wrap_denies :
    runChecks 10 60 [] (List.replicate 10 0) = List.replicate 10 0 ∧
    rateLimitCheck 10 60 (List.replicate 10 0) 30 = (false, List.replicate 10 0) ∧
    rateLimitCheck 10 60 (List.replicate 10 0) 60 = (true, [60]) ∧
    (rateLimitCheck 10 60 (List.replicate 10 0) 86400).1 = false := by decide

/-- C7 (code bug): a check at t = 86400 on a log holding the single timestamp 0
completes as allowed, and the stored sequence afterwards still holds timestamp
0, which is 86400 seconds — far more than the 60-second window — older than the
time of the check: the `.seconds` day wrap-around keeps stale entries, so the
claimed invariant fails. -/
theorem rate_limit_retains_stale_timestamp :
    rateLimitCheck 10 60 [0] 86400 = (true, [0, 86400]) ∧ 86400 - 0 > 60 := by decide

/-- C4 (confirmed): CSRF verification returns false with no presented token or
no session-bound token; a token bound to one session is rejected against a
session bound to a different token; the correct (non-empty, as generated)
token verifies against its own session; and when verification fails on a
state-mutating method, the guard answers the distinct 403 error without the
handler's result influencing the response. -/
theorem csrf_guard_correct :
    ∀ (sTok tok sess : Option String) (t tA tB m : String) (handler : Nat),
      tA ≠ tB → t ≠ "" →
      validate_csrf_token none sTok = false ∧
      validate_csrf_token (some t) none = false ∧
      validate_csrf_token (some tA) (some tB) = false ∧
      validate_csrf_token (some t) (some t) = true ∧
      (MUTATING_METHODS.contains m = true → validate_csrf_token tok sess = false →
        csrf_protected m tok sess handler = .rejected "CSRF token validation failed" 403) := by
  intro sTok tok sess t tA tB m handler hAB ht
  refine ⟨rfl, rfl, ?_, ?_, ?_⟩
  · simp only [validate_csrf_token]
    split
    · rfl
    · simp [hAB]
  · simp [validate_csrf_token, ht]
  · intro hm hv
    unfold csrf_protected
    rw [hm, hv]
    rfl

/-- C4 (witness): concrete instances of each conjunct of `csrf_guard_correct`. -/
theorem csrf_guard_correct_witness :
    validate_csrf_token none none = false ∧
    validate_csrf_token (some "tokA") none = false ∧
    validate_csrf_token (some "tokA") (some "tokB") = false ∧
    validate_csrf_token (some "tokA") (some "tokA") = true ∧
    csrf_protected "POST" (some "tokA") (some "tokB") (0 : Nat) =
      .rejected "CSRF token validation failed" 403 := by
  have h := csrf_guard_correct none (some "tokA") (some "tokB") "tokA" "tokA" "tokB" "POST" 0
    (by decide) (by decide)
  exact ⟨h.1, h.2.1, h.2.2.1, h.2.2.2.1, h.2.2.2.2 (by decide) h.2.2.1⟩

lemma hasHeader_add_self (k v : String) (h : Headers) : hasHeader k (addHeader k v h) = true := by
  simp [hasHeader, addHeader]

lemma hasHeader_add_mono {k k' v : String} {h : Headers} (hh : hasHeader k h = true) :
    hasHeader k (addHeader k' v h) = true := by
  unfold hasHeader at hh
  unfold hasHeader addHeader
  rw [List.any_append, hh]
  rfl

lemma hasHeader_set_self (k v : String) (h : Headers) : hasHeader k (setHeader k v h) = true := by
  simp [hasHeader, setHeader, List.any_append]

lemma hasHeader_set_mono {k k' v : String} {h : Headers} (hh : hasHeader k h = true) :
    hasHeader k (setHeader k' v h) = true := by
  by_cases hk : k = k'
  · subst hk
    exact hasHeader_set_self k v h
  · unfold hasHeader at hh
    unfold hasHeader setHeader
    rw [List.any_append]
    have hstep : (List.filter (fun p => !(p.1 == k')) h).any (fun p => p.1 == k) = true := by
      rw [List.any_eq_true]
      rw [List.any_eq_true] at hh
      obtain ⟨x, hx, he⟩ := hh
      have hxk : x.1 = k := by simpa using he
      refine ⟨x, List.mem_filter.mpr ⟨hx, ?_⟩, he⟩
      simp [hxk, hk]
    rw [hstep]
    rfl

lemma afterRequestCore_has_origin (h : Headers) :
    hasHeader "Access-Control-Allow-Origin" (afterRequestCore h) = true := by
  unfold afterRequestCore
  apply hasHeader_set_mono
  apply hasHeader_set_mono
  apply hasHeader_set_mono
  apply hasHeader_set_mono
  apply hasHeader_add_mono
  apply hasHeader_add_mono
  apply hasHeader_add_mono
  exact hasHeader_add_self _ _ _

lemma afterRequestCore_has_cors_headers (h : Headers) :
    hasHeader "Access-Control-Allow-Headers" (afterRequestCore h) = true := by
  unfold afterRequestCore
  apply hasHeader_set_mono
  apply hasHeader_set_mono
  apply hasHeader_set_mono
  apply hasHeader_set_mono
  apply hasHeader_add_mono
  apply hasHeader_add_mono
  exact hasHeader_add_self _ _ _

lemma afterRequestCore_has_cors_methods (h : Headers) :
    hasHeader "Access-Control-Allow-Methods" (afterRequestCore h) = true := by
  unfold afterRequestCore
  apply hasHeader_set_mono
  apply hasHeader_set_mono
  apply hasHeader_set_mono
  apply hasHeader_set_mono
  apply hasHeader_add_mono
  exact hasHeader_add_self _ _ _

lemma afterRequestCore_has_cors_credentials (h : Headers) :
    hasHeader "Access-Control-Allow-Credentials" (afterRequestCore h) = true := by
  unfold afterRequestCore
  apply hasHeader_set_mono
  apply hasHeader_set_mono
  apply hasHeader_set_mono
  apply hasHeader_set_mono
  exact hasHeader_add_self _ _ _

lemma afterRequestCore_has_nosniff (h : Headers) :
    hasHeader "X-Content-Type-Options" (afterRequestCore h) = true := by
  unfold afterRequestCore
  apply hasHeader_set_mono
  apply hasHeader_set_mono
  apply hasHeader_set_mono
  exact hasHeader_set_self _ _ _

lemma afterRequestCore_has_frame (h : Headers) :
    hasHeader "X-Frame-Options" (afterRequestCore h) = true := by
  unfold afterRequestCore
  apply hasHeader_set_mono
  apply hasHeader_set_mono
  exact hasHeader_set_self _ _ _

lemma afterRequestCore_has_xss (h : Headers) :
    hasHeader "X-XSS-Protection" (afterRequestCore h) = true := by
  unfold afterRequestCore
  apply hasHeader_set_mono
  exact hasHeader_set_self _ _ _

lemma afterRequestCore_has_referrer (h : Headers) :
    hasHeader "Referrer-Policy" (afterRequestCore h) = true := by
  unfold afterRequestCore
  exact hasHeader_set_self _ _ _

lemma after_request_keeps (k : String) (isProduction : Bool) (h : Headers)
    (hh : hasHeader k (afterRequestCore h) = true) :
    hasHeader k (after_request isProduction h) = true := by
  unfold after_request
  cases isProduction
  · exact hh
  · exact hasHeader_set_mono hh

/-- C8 (amended): every outgoing response — `after_request` runs on all of
them, success and failure paths alike — carries the four CORS headers and the
nosniff, frame-deny, XSS-protection and referrer-policy headers; but
Strict-Transport-Security and (outside production) the Content-Security-Policy
are added only by the `secure_headers` decorator, which wraps only the
`/csrf-token` and `/api/security-event` routes: responses passing through that
decorator do carry both. -/
theorem response_headers_always_present :
    ∀ (h : Headers) (isProduction : Bool),
      (hasHeader "Access-Control-Allow-Origin" (after_request isProduction h) = true ∧
       hasHeader "Access-Control-Allow-Headers" (after_request isProduction h) = true ∧
       hasHeader "Access-Control-Allow-Methods" (after_request isProduction h) = true ∧
       hasHeader "Access-Control-Allow-Credentials" (after_request isProduction h) = true ∧
       hasHeader "X-Content-Type-Options" (after_request isProduction h) = true ∧
       hasHeader "X-Frame-Options" (after_request isProduction h) = true ∧
       hasHeader "X-XSS-Protection" (after_request isProduction h) = true ∧
       hasHeader "Referrer-Policy" (after_request isProduction h) = true) ∧
      (hasHeader "Strict-Transport-Security" (after_request isProduction (secure_headers h)) = true ∧
       hasHeader "Content-Security-Policy" (after_request isProduction (secure_headers h)) = true) := by
  intro h isProduction
  refine ⟨⟨?_, ?_, ?_, ?_, ?_, ?_, ?_, ?_⟩, ?_, ?_⟩
  · exact after_request_keeps _ _ _ (afterRequestCore_has_origin h)
  · exact after_request_keeps _ _ _ (afterRequestCore_has_cors_headers h)
  · exact after_request_keeps _ _ _ (afterRequestCore_has_cors_methods h)
  · exact after_request_keeps _ _ _ (afterRequestCore_has_cors_credentials h)
  · exact after_request_keeps _ _ _ (afterRequestCore_has_nosniff h)
  · exact after_request_keeps _ _ _ (afterRequestCore_has_frame h)
  · exact after_request_keeps _ _ _ (afterRequestCore_has_xss h)
  · exact after_request_keeps _ _ _ (afterRequestCore_has_referrer h)
  · apply after_request_keeps
    unfold afterRequestCore secure_headers
    apply hasHeader_set_mono
    apply hasHeader_set_mono
    apply hasHeader_set_mono
    apply hasHeader_set_mono
    apply hasHeader_add_mono
    apply hasHeader_add_mono
    apply hasHeader_add_mono
    apply hasHeader_add_mono
    apply hasHeader_set_mono
    apply hasHeader_set_mono
    exact hasHeader_set_self _ _ _
  · apply after_request_keeps
    unfold afterRequestCore secure_headers
    apply hasHeader_set_mono
    apply hasHeader_set_mono
    apply hasHeader_set_mono
    apply hasHeader_set_mono
    apply hasHeader_add_mono
    apply hasHeader_add_mono
    apply hasHeader_add_mono
    apply hasHeader_add_mono
    exact hasHeader_set_self _ _ _

/-- C8 (counterexample): a response from any route not wrapped by
`secure_headers` (for example `/upload` or `/frames`) passes only through
`after_request`; outside production its final header set carries neither
Strict-Transport-Security nor any Content-Security-Policy, so the claim that
every response advertises strict transport security and the CSP fails. -/
theorem after_request_missing_hsts_csp :
    hasHeader "Strict-Transport-Security" (after_request false []) = false ∧
    hasHeader "Content-Security-Policy" (after_request false []) = false := by decide

/-- C2 (amended): the upload writes nothing to storage when the request has no
file, an empty filename, an oversize body or a disallowed extension; but once
those pre-checks pass the file is persisted BEFORE its content is decoded —
whatever the decoder then says, exactly the derived (name, bytes) pair has been
appended to storage, so bytes that fail to decode are still persisted. -/
theorem upload_write_requires_precheck_pass :
    ∀ (decode : Decoder) (now : Nat) (file? : Option UploadFile) (storage : Storage),
      (handleUpload decode now file? storage).2 = storage ∨
      ∃ f, file? = some f ∧ f.filename ≠ "" ∧ f.bytes.length ≤ MAX_CONTENT_LENGTH ∧
        allowed_file f.filename = true ∧
        (handleUpload decode now file? storage).2 =
          storage ++ [(uploadName (toString now) f.filename, f.bytes)] := by
  intro decode now file? storage
  cases file? with
  | none => left; rfl
  | some f =>
    by_cases hsize : f.bytes.length > MAX_CONTENT_LENGTH
    · left
      simp [handleUpload, hsize]
    · by_cases hname : f.filename = ""
      · left
        simp [handleUpload, upload_file, hsize, hname]
      · by_cases hall : allowed_file f.filename
        · right
          refine ⟨f, rfl, hname, Nat.le_of_not_lt hsize, hall, ?_⟩
          cases hd : decode f.bytes with
          | some p => simp [handleUpload, upload_file, hsize, hname, hall, hd]
          | none => simp [handleUpload, upload_file, hsize, hname, hall, hd]
        · left
          simp [handleUpload, upload_file, hsize, hname, hall]

/-- C2 (counterexample): a candidate with an allow-listed extension whose bytes
do NOT decode as an image fails validation — the response is the
`PROCESSING_ERROR` failure — yet the file has been written to storage: the
post-call store is non-empty, refuting that a failing candidate is never
written. -/
theorem upload_persists_undecodable_file :
    handleUpload rejectAllDecoder 0 (some ⟨"x.png", [1, 2, 3], "image/png"⟩) [] =
      (.failure "File processing failed. Please try again." "PROCESSING_ERROR" 500,
       [("upload_0_x.png", [1, 2, 3])]) ∧
    ([("upload_0_x.png", [1, 2, 3])] : Storage) ≠ [] := by decide

/-- C6 (amended): once the filename, extension and size pre-checks pass, the
decoder alone decides acceptance: a byte stream it decodes is accepted with
exactly the decoded width and height reported, REGARDLESS of whether the
declared extension agrees with the decoded format (the code never compares
them), and a stream it does not decode is rejected. -/
theorem upload_decode_decides_acceptance :
    ∀ (decode : Decoder) (now : Nat) (f : UploadFile) (storage : Storage),
      f.filename ≠ "" → allowed_file f.filename = true →
      f.bytes.length ≤ MAX_CONTENT_LENGTH →
      (∀ fmt w h, decode f.bytes = some (fmt, w, h) →
        (handleUpload decode now (some f) storage).1 =
          .success (uploadName (toString now) f.filename) f.filename w h
            f.bytes.length f.mimetype) ∧
      (decode f.bytes = none →
        (handleUpload decode now (some f) storage).1 =
          .failure "File processing failed. Please try again." "PROCESSING_ERROR" 500) := by
  intro decode now f storage hname hall hle
  have hsize : ¬(f.bytes.length > MAX_CONTENT_LENGTH) := Nat.not_lt.mpr hle
  constructor
  · intro fmt w h hd
    simp [handleUpload, upload_file, hsize, hname, hall, hd]
  · intro hd
    simp [handleUpload, upload_file, hsize, hname, hall, hd]

/-- C6 (witness): a decodable stream with matching pre-checks is accepted with
the decoded dimensions. -/
theorem upload_decode_decides_acceptance_witness :
    (handleUpload jpegOnlyDecoder 3 (some ⟨"y.jpg", [255, 216], "image/jpeg"⟩) []).1 =
      .success (uploadName (toString 3) "y.jpg") "y.jpg" 5 7 2 "image/jpeg" := by
  have h := upload_decode_decides_acceptance jpegOnlyDecoder 3
    ⟨"y.jpg", [255, 216], "image/jpeg"⟩ [] (by decide) (by decide) (by decide)
  exact h.1 ImgFormat.jpeg 5 7 (by decide)

/-- C6 (counterexample): a byte stream whose decodable content is a JPEG but
whose declared extension is `.png` — the claim says such disagreement is
rejected — is ACCEPTED with `success:true`: the handler never compares the
extension with the decoded format. -/
theorem upload_accepts_mismatched_extension :
    (handleUpload jpegOnlyDecoder 0 (some ⟨"x.png", [255, 216], "image/png"⟩) []).1 =
      .success "upload_0_x.png" "x.png" 5 7 2 "image/png" ∧
    jpegOnlyDecoder [255, 216] = some (.jpeg, 5, 7) ∧
    allowed_file "x.png" = true ∧ ImgFormat.jpeg ≠ ImgFormat.png := by decide

/-- C9 (amended): every upload response is either the success shape — which
carries exactly the fields success, filename, original_name, width, height,
file_size, mime_type — or a failure carrying success:false, error and an
error_code drawn from NO_FILE, INVALID_FILE_TYPE, PROCESSING_ERROR, or
FILE_TOO_LARGE (the latter produced by the framework's 16 MiB cap through the
413 handler, outside the claim's three-code set). -/
theorem upload_response_shape :
    ∀ (decode : Decoder) (now : Nat) (file? : Option UploadFile) (storage : Storage),
      (∃ fn orig w h sz mt,
        (handleUpload decode now file? storage).1 = .success fn orig w h sz mt) ∨
      (∃ e c st, (handleUpload decode now file? storage).1 = .failure e c st ∧
        c ∈ (["NO_FILE", "INVALID_FILE_TYPE", "PROCESSING_ERROR", "FILE_TOO_LARGE"] : List String)) := by
  intro decode now file? storage
  cases file? with
  | none => right; exact ⟨_, _, _, rfl, by decide⟩
  | some f =>
    by_cases hsize : f.bytes.length > MAX_CONTENT_LENGTH
    · right
      have : (handleUpload decode now (some f) storage).1 =
          .failure "File too large" "FILE_TOO_LARGE" 413 := by
        simp [handleUpload, hsize]
      exact ⟨_, _, _, this, by decide⟩
    · by_cases hname : f.filename = ""
      · right
        have : (handleUpload decode now (some f) storage).1 =
            .failure "No file selected" "NO_FILE" 400 := by
          simp [handleUpload, upload_file, hsize, hname]
        exact ⟨_, _, _, this, by decide⟩
      · by_cases hall : allowed_file f.filename
        · cases hd : decode f.bytes with
          | some p =>
            left
            obtain ⟨fmt, w, h⟩ := p
            have : (handleUpload decode now (some f) storage).1 =
                .success (uploadName (toString now) f.filename) f.filename w h
                  f.bytes.length f.mimetype := by
              simp [handleUpload, upload_file, hsize, hname, hall, hd]
            exact ⟨_, _, _, _, _, _, this⟩
          | none =>
            right
            have : (handleUpload decode now (some f) storage).1 =
                .failure "File processing failed. Please try again." "PROCESSING_ERROR" 500 := by
              simp [handleUpload, upload_file, hsize, hname, hall, hd]
            exact ⟨_, _, _, this, by decide⟩
        · right
          have : (handleUpload decode now (some f) storage).1 =
              .failure "Invalid file type. Only JPG and PNG files are allowed."
                "INVALID_FILE_TYPE" 400 := by
            simp [handleUpload, upload_file, hsize, hname, hall]
          exact ⟨_, _, _, this, by decide⟩

/-- An oversize upload candidate: one byte over the 16 MiB cap. -/
def bigFile : UploadFile := ⟨"big.png", List.replicate (MAX_CONTENT_LENGTH + 1) 0, "image/png"⟩

/-- C9 (counterexample): an oversize upload is a validation failure — the spec
itself places the size ceiling among the validator's checks — but its
error_code is `FILE_TOO_LARGE`, which is not among the claim's three codes
NO_FILE, INVALID_FILE_TYPE, PROCESSING_ERROR. -/
theorem oversize_error_code_outside_enum :
    (handleUpload rejectAllDecoder 0 (some bigFile) []).1 =
      .failure "File too large" "FILE_TOO_LARGE" 413 ∧
    ¬("FILE_TOO_LARGE" ∈ (["NO_FILE", "INVALID_FILE_TYPE", "PROCESSING_ERROR"] : List String)) := by
  constructor
  · have hsize : bigFile.bytes.length > MAX_CONTENT_LENGTH := by
      simp [bigFile]
    simp [handleUpload, hsize]
  · decide

lemma mem_of_mem_dropWhile {α : Type} (p : α → Bool) :
    ∀ l : List α, ∀ c : α, c ∈ l.dropWhile p → c ∈ l := by
  intro l
  induction l with
  | nil => intro c h; simp at h
  | cons a as ih =>
    intro c h
    by_cases hp : p a
    · rw [List.dropWhile_cons_of_pos hp] at h
      exact List.mem_cons_of_mem _ (ih c h)
    · rw [List.dropWhile_cons_of_neg hp] at h
      exact h

lemma mem_of_mem_stripChars (bad l : List Char) (c : Char) (h : c ∈ stripChars bad l) :
    c ∈ l := by
  unfold stripChars at h
  rw [List.mem_reverse] at h
  have h2 := mem_of_mem_dropWhile _ _ _ h
  rw [List.mem_reverse] at h2
  exact mem_of_mem_dropWhile _ _ _ h2

lemma secureFilenameL_keepChar (l : List Char) (c : Char) (h : c ∈ secureFilenameL l) :
    keepChar c = true := by
  unfold secureFilenameL at h
  have h2 := mem_of_mem_stripChars _ _ _ h
  exact (List.mem_filter.mp h2).2

lemma digit_no_sep (c : Char) (h : c.isDigit = true) :
    (!(c == '/') && !(c == '\\')) = true := by
  by_cases h1 : c = '/'
  · subst h1
    exact absurd h (by decide)
  · by_cases h2 : c = '\\'
    · subst h2
      exact absurd h (by decide)
    · simp [h1, h2]

lemma keep_no_sep (c : Char) (h : keepChar c = true) :
    (!(c == '/') && !(c == '\\')) = true := by
  by_cases h1 : c = '/'
  · subst h1
    exact absurd h (by decide)
  · by_cases h2 : c = '\\'
    · subst h2
      exact absurd h (by decide)
    · simp [h1, h2]

/-- C5 (amended): the persisted storage name has exactly the shape
`upload_<timestamp>_<secure_filename(original)>` and contains no `/` and no
`\` character, for every candidate filename (the timestamp is the digit string
`str(int(time.time()))`). The claim's further guarantees fail: the sanitized
part is not truncated to 100 characters (the truncating `sanitize_filename` is
never called on the upload path) and a `..` substring can survive
`secure_filename` — see the counterexample. -/
theorem storage_name_no_separators :
    ∀ (ts orig : List Char), ts.all Char.isDigit = true →
      (uploadNameL ts orig).all (fun c => !(c == '/') && !(c == '\\')) = true ∧
      uploadNameL ts orig = "upload_".data ++ ts ++ '_' :: secureFilenameL orig := by
  intro ts orig hts
  refine ⟨?_, rfl⟩
  rw [List.all_eq_true]
  intro c hc
  unfold uploadNameL at hc
  rw [List.mem_append] at hc
  rcases hc with hc | hc
  · rw [List.mem_append] at hc
    rcases hc with hc | hc
    · have he : "upload_".data = ['u', 'p', 'l', 'o', 'a', 'd', '_'] := rfl
      rw [he] at hc
      simp only [List.mem_cons, List.not_mem_nil, or_false] at hc
      rcases hc with rfl | rfl | rfl | rfl | rfl | rfl | rfl <;> decide
    · rw [List.all_eq_true] at hts
      exact digit_no_sep c (hts c hc)
  · rcases List.mem_cons.mp hc with hc | hc
    · subst hc
      decide
    · exact keep_no_sep c (secureFilenameL_keepChar orig c hc)

/-- C5 (witness): a traversal-laden candidate name produces a separator-free
stored name of the claimed shape. -/
theorem storage_name_no_separators_witness :
    (uploadNameL "1700000000".data "../../e vil.png".data).all
      (fun c => !(c == '/') && !(c == '\\')) = true ∧
    uploadNameL "1700000000".data "../../e vil.png".data =
      "upload_".data ++ "1700000000".data ++ '_' :: secureFilenameL "../../e vil.png".data :=
  storage_name_no_separators "1700000000".data "../../e vil.png".data (by decide)

/-- A candidate filename whose secure name keeps a `..` and exceeds 100
characters: `a..` followed by 110 `b`s and `.png`. -/
def dotLongName : List Char := 'a' :: '.' :: '.' :: (List.replicate 110 'b' ++ ".png".data)

/-- C5 (counterexample): for this candidate the derived storage name contains
the substring `..` (werkzeug's `secure_filename` deletes `..` only when it is
whitespace- or separator-adjacent) and its sanitized part is 117 characters
long, exceeding the claimed 100-character bound — `upload_file` never applies
the 100-character truncation of `sanitize_filename`. -/
theorem storage_name_dotdot_and_overlong :
    subSearch "..".data (uploadNameL "0".data dotLongName) = true ∧
    (secureFilenameL dotLongName).length > 100 := by decide
